import Mathlib

/-!
Verification of the activity-dashboard ETL pipeline (dashboard.py, LeesMoreFit.py).

The Python sources are shallowly embedded: pure helper functions become Lean
functions over `List Char` / `String` / `ℚ` / `ℤ`; pandas DataFrames become an
explicit column-list / row-list structure; operations that can raise a Python
exception return `Except`.  Python `//` and `%` on integers (floor division,
nonnegative remainder for positive divisors) are `Int./` and `Int.%`;
Python `int(float)` truncation toward zero is `Int.tdiv`.

Modelled subsets (documented at each definition): numeric-literal parsing
covers optional ASCII whitespace, an optional sign and decimal digits with an
optional decimal point (Python additionally accepts underscores, exponents and
non-finite literals); `str.strip` is modelled on ASCII whitespace; dates are
modelled at day resolution.
-/

namespace Garmin

/-- Characters of a decimal representation of a natural number, fuel-driven so
that it reduces in the kernel.  Models Python `str` of a nonnegative int. -/
def decCharsAux : ℕ → ℕ → List Char → List Char
  | 0, _, acc => acc
  | f + 1, n, acc =>
    if n < 10 then Nat.digitChar n :: acc
    else decCharsAux f (n / 10) (Nat.digitChar (n % 10) :: acc)

/-- Decimal digits of `n`, most significant first. -/
def decChars (n : ℕ) : List Char := decCharsAux (n + 1) n []

/-- Decimal representation of an integer, models Python `str` of an int. -/
def intChars (n : ℤ) : List Char :=
  if n < 0 then '-' :: decChars (-n).toNat else decChars n.toNat

/-- Models the Python format spec `f"{n:02d}"`: decimal representation,
zero-padded on the left to width 2 (a sign counts toward the width). -/
def fmt02Chars (n : ℤ) : List Char :=
  if n < 0 then '-' :: decChars (-n).toNat
  else if n < 10 then '0' :: decChars n.toNat
  else decChars n.toNat

/-- Models Python `str.split(c)` for a one-character separator: splits at every
occurrence, keeping empty pieces; the empty string yields `[""]`. -/
def splitOnChar (c : Char) : List Char → List (List Char)
  | [] => [[]]
  | a :: as =>
    if a = c then [] :: splitOnChar c as
    else
      match splitOnChar c as with
      | [] => [[a]]
      | p :: ps => (a :: p) :: ps

/-- Models Python `str.strip()` on the modelled ASCII-whitespace subset. -/
def stripChars (l : List Char) : List Char :=
  ((l.dropWhile Char.isWhitespace).reverse.dropWhile Char.isWhitespace).reverse

/-- Value of a nonempty all-digit character list, `none` otherwise. -/
def digitsVal (l : List Char) : Option ℕ :=
  if l ≠ [] ∧ l.all Char.isDigit then
    some (l.foldl (fun a c => 10 * a + (c.toNat - 48)) 0)
  else none

/-- Models Python `int(text)` on the modelled subset: optional surrounding
whitespace, optional single sign, then decimal digits. -/
def pyIntChars (l : List Char) : Option ℤ :=
  match stripChars l with
  | '-' :: ds => (digitsVal ds).map (fun n => -(n : ℤ))
  | '+' :: ds => (digitsVal ds).map (fun n => (n : ℤ))
  | ds => (digitsVal ds).map (fun n => (n : ℤ))

/-- Unsigned decimal-literal value with an optional decimal point:
accepts `12`, `12.`, `12.5`, `.5`; rejects the empty string and `.`. -/
def fracVal (l : List Char) : Option ℚ :=
  match splitOnChar '.' l with
  | [ip] => (digitsVal ip).map (fun n => (n : ℚ))
  | [ip, fp] =>
    if (ip ≠ [] ∨ fp ≠ []) ∧ ip.all Char.isDigit ∧ fp.all Char.isDigit then
      some ((ip.foldl (fun a c => 10 * a + (c.toNat - 48)) 0 : ℕ)
        + (fp.foldl (fun a c => 10 * a + (c.toNat - 48)) 0 : ℕ) / (10 : ℚ) ^ fp.length)
    else none
  | _ => none

/-- Models Python `float(text)` on the finite decimal-literal subset
(optional whitespace, optional sign, digits with an optional point).
Non-finite literals such as `nan`, `inf` and exponent forms are handled
separately where the embedded code needs them. -/
def pyFloatChars (l : List Char) : Option ℚ :=
  match stripChars l with
  | '-' :: ds => (fracVal ds).map (fun q => -q)
  | '+' :: ds => fracVal ds
  | ds => fracVal ds

/-- String wrapper for `pyFloatChars`. -/
def pyFloatLit (s : String) : Option ℚ := pyFloatChars s.data

/-- dashboard.py line 15 / LeesMoreFit.py line 17, `format_duration(seconds)`.
The input is `none` for a null / NaN argument (`pd.isna`), otherwise the
numeric value; `int(seconds)` is truncation toward zero (`Int.tdiv`), and
Python `//` / `%` on ints are `Int./` / `Int.%`. -/
def format_duration : Option ℚ → String
  | none => "00:00:00"
  | some q =>
    if q = 0 then "00:00:00"
    else
      String.mk (fmt02Chars (Int.tdiv q.num q.den / 3600)
        ++ ':' :: fmt02Chars (Int.tdiv q.num q.den % 3600 / 60)
        ++ ':' :: fmt02Chars (Int.tdiv q.num q.den % 60))

/-- dashboard.py line 91, `parse_time_to_seconds(time_str)`.  The input is
`none` for a null / NaN argument.  Three `:`-separated parts parse as
`h*3600 + m*60 + s`, two as `m*60 + s`, otherwise Python falls back to
`float(time_str)` on the whole string (which fails, yielding 0, whenever the
string still contains a `:`); any `int`/`float` parse failure yields 0. -/
def parse_time_to_seconds : Option String → ℚ
  | none => 0
  | some t =>
    match splitOnChar ':' t.data with
    | [a, b, c] =>
      match pyIntChars a, pyIntChars b, pyIntChars c with
      | some h, some m, some s => ((h * 3600 + m * 60 + s : ℤ) : ℚ)
      | _, _, _ => 0
    | [a, b] =>
      match pyIntChars a, pyIntChars b with
      | some m, some s => ((m * 60 + s : ℤ) : ℚ)
      | _, _ => 0
    | _ => (pyFloatLit t).getD 0

/-- dashboard.py line 106, `parse_pace_to_seconds_per_unit(pace_str)`. -/
def parse_pace_to_seconds_per_unit : Option String → ℚ
  | none => 0
  | some t =>
    match splitOnChar ':' t.data with
    | [a, b] =>
      match pyIntChars a, pyIntChars b with
      | some m, some s => ((m * 60 + s : ℤ) : ℚ)
      | _, _ => 0
    | _ => (pyFloatLit t).getD 0

/-- Two zero-padded decimal digits of `n < 100`; the canonical `HH` / `MM` /
`SS` component of a duration string. -/
def pad2Chars (n : ℕ) : List Char := [Nat.digitChar (n / 10), Nat.digitChar (n % 10)]

/-- The canonical zero-padded `HH:MM:SS` string with components `h`, `m`, `s`. -/
def canonicalHMS (h m s : ℕ) : String :=
  String.mk (pad2Chars h ++ ':' :: pad2Chars m ++ ':' :: pad2Chars s)

theorem splitOnChar_of_not_mem (c : Char) (l : List Char) (h : c ∉ l) :
    splitOnChar c l = [l] := by
  induction l with
  | nil => rfl
  | cons a as ih =>
    simp only [List.mem_cons, not_or] at h
    have ha : ¬ a = c := fun e => h.1 e.symm
    simp only [splitOnChar, if_neg ha, ih h.2]

theorem splitOnChar_append_cons (c : Char) (l rest : List Char) (h : c ∉ l) :
    splitOnChar c (l ++ c :: rest) = l :: splitOnChar c rest := by
  induction l with
  | nil => simp [splitOnChar]
  | cons a as ih =>
    simp only [List.mem_cons, not_or] at h
    have ha : ¬ a = c := fun e => h.1 e.symm
    simp only [List.cons_append, splitOnChar, if_neg ha, List.append_eq]
    rw [ih h.2]

theorem colon_not_mem_pad2 : ∀ n, n < 100 → ':' ∉ pad2Chars n := by decide

theorem pyIntChars_pad2 : ∀ n, n < 100 → pyIntChars (pad2Chars n) = some (n : ℤ) := by decide

theorem fmt02Chars_ofNat : ∀ n : ℕ, n < 100 → fmt02Chars (Int.ofNat n) = pad2Chars n := by
  decide

theorem fmt02Chars_natCast (n : ℕ) (h : n < 100) : fmt02Chars (n : ℤ) = pad2Chars n := by
  have e := fmt02Chars_ofNat n h
  rwa [Int.ofNat_eq_natCast] at e

theorem parse_time_canonicalHMS (h m s : ℕ) (hh : h < 100) (hm : m < 100) (hs : s < 100) :
    parse_time_to_seconds (some (canonicalHMS h m s)) =
      (((h : ℤ) * 3600 + (m : ℤ) * 60 + (s : ℤ) : ℤ) : ℚ) := by
  have hsplit : splitOnChar ':' (canonicalHMS h m s).data =
      [pad2Chars h, pad2Chars m, pad2Chars s] := by
    show splitOnChar ':' (pad2Chars h ++ ':' :: (pad2Chars m ++ ':' :: pad2Chars s)) = _
    rw [splitOnChar_append_cons _ _ _ (colon_not_mem_pad2 h hh),
      splitOnChar_append_cons _ _ _ (colon_not_mem_pad2 m hm),
      splitOnChar_of_not_mem _ _ (colon_not_mem_pad2 s hs)]
  simp only [parse_time_to_seconds]
  rw [hsplit]
  simp only [pyIntChars_pad2 h hh, pyIntChars_pad2 m hm, pyIntChars_pad2 s hs]

/-- C1: for every string in canonical zero-padded `HH:MM:SS` form with hours
below 100 (minutes and seconds below 60), formatting the parsed value returns
the original string: `format_duration (parse_time_to_seconds s) = s`. -/
theorem C1_duration_roundtrip (h m s : ℕ) (hh : h < 100) (hm : m < 60) (hs : s < 60) :
    format_duration (some (parse_time_to_seconds (some (canonicalHMS h m s)))) =
      canonicalHMS h m s := by
  have hm' : m < 100 := by omega
  have hs' : s < 100 := by omega
  rw [parse_time_canonicalHMS h m s hh hm' hs']
  by_cases h0 : (h : ℤ) * 3600 + (m : ℤ) * 60 + (s : ℤ) = 0
  · have hz : h = 0 ∧ m = 0 ∧ s = 0 := by omega
    obtain ⟨rfl, rfl, rfl⟩ := hz
    decide
  · simp only [format_duration]
    rw [if_neg (show ¬ (((h : ℤ) * 3600 + (m : ℤ) * 60 + (s : ℤ) : ℤ) : ℚ) = 0 by
      rwa [Int.cast_eq_zero])]
    simp only [Rat.num_intCast, Rat.den_intCast, Nat.cast_one, Int.tdiv_one]
    have e1 : ((h : ℤ) * 3600 + (m : ℤ) * 60 + (s : ℤ)) / 3600 = (h : ℤ) := by omega
    have e2 : ((h : ℤ) * 3600 + (m : ℤ) * 60 + (s : ℤ)) % 3600 / 60 = (m : ℤ) := by omega
    have e3 : ((h : ℤ) * 3600 + (m : ℤ) * 60 + (s : ℤ)) % 60 = (s : ℤ) := by omega
    rw [e1, e2, e3, fmt02Chars_natCast h hh, fmt02Chars_natCast m hm', fmt02Chars_natCast s hs']
    rfl

/-- Witness for C1 at the concrete canonical string "01:02:03". -/
theorem C1_duration_roundtrip_witness :
    format_duration (some (parse_time_to_seconds (some (canonicalHMS 1 2 3)))) =
      canonicalHMS 1 2 3 :=
  C1_duration_roundtrip 1 2 3 (by decide) (by decide) (by decide)

/-- C2 counterexample: for the negative input -5 the code takes Python floor
division and renders "-1:59:55", not "00:00:00" as the claim states. -/
theorem C2_format_duration_counterexample :
    format_duration (some (-5 : ℚ)) ≠ "00:00:00" := by decide

/-- C2 (amended): `format_duration` returns "00:00:00" exactly for null and 0;
a positive seconds count `n` renders as `H:MM:SS` with `H = n / 3600`
(zero-padded to two digits whenever `H < 100`) and two zero-padded digits for
minutes and seconds; a negative count is rendered through Python floor
division and modulo (for example -5 gives "-1:59:55"), not "00:00:00". -/
theorem C2_format_duration :
    format_duration none = "00:00:00" ∧
    format_duration (some 0) = "00:00:00" ∧
    (∀ n : ℤ, 0 < n → ∃ h : ℤ, ∃ m s : ℕ,
      n = h * 3600 + m * 60 + s ∧ 0 ≤ h ∧ m < 60 ∧ s < 60 ∧
      format_duration (some (n : ℚ)) =
        String.mk (fmt02Chars h ++ ':' :: pad2Chars m ++ ':' :: pad2Chars s) ∧
      (h < 100 → fmt02Chars h = pad2Chars h.toNat)) ∧
    format_duration (some (-5 : ℚ)) = String.mk ['-', '1', ':', '5', '9', ':', '5', '5'] := by
  refine ⟨rfl, by decide, fun n hn => ?_, by decide⟩
  refine ⟨n / 3600, (n % 3600 / 60).toNat, (n % 60).toNat, by omega, by omega, by omega,
    by omega, ?_, ?_⟩
  · have hm : ((n % 3600 / 60).toNat : ℤ) = n % 3600 / 60 := Int.toNat_of_nonneg (by omega)
    have hs : ((n % 60).toNat : ℤ) = n % 60 := Int.toNat_of_nonneg (by omega)
    simp only [format_duration]
    rw [if_neg (show ¬ ((n : ℤ) : ℚ) = 0 by rw [Int.cast_eq_zero]; omega)]
    simp only [Rat.num_intCast, Rat.den_intCast, Nat.cast_one, Int.tdiv_one]
    rw [← hm, ← hs, fmt02Chars_natCast _ (by omega), fmt02Chars_natCast _ (by omega)]
    simp only [Int.toNat_natCast]
  · intro hlt
    have h0 : (((n / 3600).toNat : ℕ) : ℤ) = n / 3600 := Int.toNat_of_nonneg (by omega)
    rw [← h0]
    exact fmt02Chars_natCast _ (by omega)

/-- Witness for C2 at the concrete positive input 3723. -/
theorem C2_format_duration_witness :
    ∃ h : ℤ, ∃ m s : ℕ, (3723 : ℤ) = h * 3600 + m * 60 + s ∧ 0 ≤ h ∧ m < 60 ∧ s < 60 ∧
      format_duration (some ((3723 : ℤ) : ℚ)) =
        String.mk (fmt02Chars h ++ ':' :: pad2Chars m ++ ':' :: pad2Chars s) ∧
      (h < 100 → fmt02Chars h = pad2Chars h.toNat) :=
  C2_format_duration.2.2.1 3723 (by decide)

/-- C3: `parse_time_to_seconds` splits on ':' and returns `h*3600 + m*60 + s`
for three parts, `m*60 + s` for two parts, the parsed float value for a single
part, and 0 on any parse failure (including empty and null input); in
particular "01:02:03" gives 3723, "5:30" gives 330, and "" and "garbage"
give 0. -/
theorem C3_parse_time_to_seconds :
    parse_time_to_seconds none = 0 ∧
    (∀ t a b c h m s, splitOnChar ':' t.data = [a, b, c] →
      pyIntChars a = some h → pyIntChars b = some m → pyIntChars c = some s →
      parse_time_to_seconds (some t) = ((h * 3600 + m * 60 + s : ℤ) : ℚ)) ∧
    (∀ t a b m s, splitOnChar ':' t.data = [a, b] →
      pyIntChars a = some m → pyIntChars b = some s →
      parse_time_to_seconds (some t) = ((m * 60 + s : ℤ) : ℚ)) ∧
    (∀ t l q, splitOnChar ':' t.data = [l] → pyFloatChars t.data = some q →
      parse_time_to_seconds (some t) = q) ∧
    (∀ t l, splitOnChar ':' t.data = [l] → pyFloatChars t.data = none →
      parse_time_to_seconds (some t) = 0) ∧
    parse_time_to_seconds (some "01:02:03") = 3723 ∧
    parse_time_to_seconds (some "5:30") = 330 ∧
    parse_time_to_seconds (some "") = 0 ∧
    parse_time_to_seconds (some "garbage") = 0 := by
  refine ⟨rfl, ?_, ?_, ?_, ?_, by decide, by decide, by decide, by decide⟩
  · intro t a b c h m s hsplit ha hb hc
    simp only [parse_time_to_seconds]
    rw [hsplit]
    simp only [ha, hb, hc]
  · intro t a b m s hsplit ha hb
    simp only [parse_time_to_seconds]
    rw [hsplit]
    simp only [ha, hb]
  · intro t l q hsplit hq
    simp only [parse_time_to_seconds]
    rw [hsplit]
    simp only [pyFloatLit, hq, Option.getD_some]
  · intro t l hsplit hq
    simp only [parse_time_to_seconds]
    rw [hsplit]
    simp only [pyFloatLit, hq, Option.getD_none]

/-- Witness for C3 at the concrete three-part string "10:20:30". -/
theorem C3_parse_time_to_seconds_witness :
    parse_time_to_seconds (some "10:20:30") = ((10 * 3600 + 20 * 60 + 30 : ℤ) : ℚ) :=
  C3_parse_time_to_seconds.2.1 "10:20:30" ['1', '0'] ['2', '0'] ['3', '0'] 10 20 30
    (by decide) (by decide) (by decide) (by decide)

/-! FIT path (LeesMoreFit.py).  The external FIT decoder is an opaque
collaborator: a decoded `session` message is modelled as a record of the four
fields the code reads, with `none` standing for a key that is missing from the
dict or present with value `None` (the code treats both identically). -/

/-- Models Python `str.title()` on the ASCII-alphabetic subset: the first
character of each alphabetic run is uppercased, the rest lowercased. -/
def pyTitleAux : Bool → List Char → List Char
  | _, [] => []
  | prevAlpha, c :: cs =>
    if c.isAlpha then
      (if prevAlpha then c.toLower else c.toUpper) :: pyTitleAux true cs
    else c :: pyTitleAux false cs

/-- String wrapper for `pyTitleAux`, starting outside an alphabetic run. -/
def pyTitle (s : String) : String := String.mk (pyTitleAux false s.data)

/-- Models Python single-character `str.replace(a, b)`. -/
def replaceChar (a b : Char) (s : String) : String :=
  String.mk (s.data.map (fun c => if c = a then b else c))

/-- One decoded FIT `session` message (LeesMoreFit.py lines 101-111): only the
fields the code reads; `none` means absent-or-None. -/
structure SessionMessage where
  sport : Option String
  total_calories : Option ℚ
  max_speed : Option ℚ
  total_elevation_gain : Option ℚ
deriving DecidableEq, Repr

/-- The session-level summary the code attaches to the activity. -/
structure ActivitySummary where
  activity_type : String
  total_calories : ℚ
  max_speed_kmh : ℚ
  total_elevation_gain_m : ℚ
deriving DecidableEq, Repr

/-- LeesMoreFit.py lines 94-111: defaults are 0 and 'Onbekend' (Dutch for
"Unknown", the spec's English rendering); the loop over session messages
executes its body once and then `break`s, so only the first session message
contributes; a present `sport` is passed through
`str(...).replace('_',' ').title()` and `max_speed` is converted m/s to km/h
by multiplying with 3.6. -/
def session_summary : List SessionMessage → ActivitySummary
  | [] => { activity_type := "Onbekend", total_calories := 0, max_speed_kmh := 0
            total_elevation_gain_m := 0 }
  | s :: _ =>
    { activity_type :=
        match s.sport with
        | some v => pyTitle (replaceChar '_' ' ' v)
        | none => "Onbekend"
      total_calories := s.total_calories.getD 0
      max_speed_kmh :=
        match s.max_speed with
        | some v => v * (36 / 10)
        | none => 0
      total_elevation_gain_m := s.total_elevation_gain.getD 0 }

/-- C5: in the FIT path only the first session message determines the summary
fields; later session messages are ignored, and every field that is absent
from (or None in) that first message keeps its default (0 for the numeric
fields, the unknown marker for the activity type). -/
theorem C5_first_session_summary :
    (∀ s rest, session_summary (s :: rest) = session_summary [s]) ∧
    session_summary [] =
      { activity_type := "Onbekend", total_calories := 0, max_speed_kmh := 0
        total_elevation_gain_m := 0 } ∧
    (∀ s rest, s.sport = none →
      (session_summary (s :: rest)).activity_type = "Onbekend") ∧
    (∀ s rest, s.total_calories = none →
      (session_summary (s :: rest)).total_calories = 0) ∧
    (∀ s rest, s.max_speed = none →
      (session_summary (s :: rest)).max_speed_kmh = 0) ∧
    (∀ s rest, s.total_elevation_gain = none →
      (session_summary (s :: rest)).total_elevation_gain_m = 0) := by
  refine ⟨fun s rest => rfl, rfl, ?_, ?_, ?_, ?_⟩
  · intro s rest h
    simp [session_summary, h]
  · intro s rest h
    simp [session_summary, h]
  · intro s rest h
    simp [session_summary, h]
  · intro s rest h
    simp [session_summary, h]

/-- Witness for C5: a two-session file uses only the first session, and an
all-absent first session yields the defaulted activity type. -/
theorem C5_first_session_summary_witness :
    session_summary [⟨some "trail_running", some 500, some 10, some 20⟩,
        ⟨some "cycling", some 900, some 20, some 40⟩] =
      session_summary [⟨some "trail_running", some 500, some 10, some 20⟩] ∧
    (session_summary [⟨none, none, none, none⟩]).activity_type = "Onbekend" :=
  ⟨C5_first_session_summary.1 ⟨some "trail_running", some 500, some 10, some 20⟩
      [⟨some "cycling", some 900, some 20, some 40⟩],
    C5_first_session_summary.2.2.1 ⟨none, none, none, none⟩ [] rfl⟩

/-- Timestamp field of a decoded FIT `record` message: absent (no `timestamp`
key in any dict for that record), invalid (present but not convertible by
`pd.to_datetime(..., errors='coerce')`, hence NaT), or a valid instant
(modelled at day resolution as an ordinal). -/
inductive TsField where
  | absent
  | invalid
  | valid (t : ℤ)
deriving DecidableEq, Repr

/-- True only for an absent timestamp key. -/
def TsField.isAbsent : TsField → Bool
  | .absent => true
  | _ => false

/-- True only for a timestamp that survives `pd.to_datetime` coercion. -/
def TsField.isValid : TsField → Bool
  | .valid _ => true
  | _ => false

/-- One decoded FIT `record` message, restricted to the fields relevant to the
drop-and-sort stage (the other sensor fields travel along unchanged). -/
structure FitRecord where
  timestamp : TsField
  heart_rate : Option ℚ
deriving DecidableEq, Repr

/-- Sort key of a record: its valid timestamp (only applied to valid ones). -/
def tsVal (r : FitRecord) : ℤ :=
  match r.timestamp with
  | .valid t => t
  | _ => 0

/-- Ascending-timestamp order used by `df.sort_values(by='DatumTijd')`. -/
def recordLE (a b : FitRecord) : Prop := tsVal a ≤ tsVal b

instance : DecidableRel recordLE := fun a b => inferInstanceAs (Decidable (tsVal a ≤ tsVal b))

instance : IsTotal FitRecord recordLE := ⟨fun a b => le_total (tsVal a) (tsVal b)⟩

instance : IsTrans FitRecord recordLE := ⟨fun _ _ _ => le_trans⟩

/-- LeesMoreFit.py lines 80-88: if the `DatumTijd` column exists (i.e. some
record message carried a `timestamp` key), timestamps are coerced
(`errors='coerce'`), rows with NaT are dropped and the rest sorted ascending;
if all rows were dropped, the subsequent `.iloc[0]` raises IndexError, which
the surrounding `except Exception` turns into an empty DataFrame.  If no
record carried a timestamp at all, the `else` branch returns an empty
DataFrame directly. -/
def parse_fit_records (recs : List FitRecord) : List FitRecord :=
  if recs.any (fun r => !r.timestamp.isAbsent) then
    match recs.filter (fun r => r.timestamp.isValid) with
    | [] => []
    | kept => List.insertionSort recordLE kept
  else []

theorem parse_fit_records_eq (recs : List FitRecord) :
    parse_fit_records recs =
      if recs.any (fun r => !r.timestamp.isAbsent) then
        List.insertionSort recordLE (recs.filter (fun r => r.timestamp.isValid))
      else [] := by
  unfold parse_fit_records
  split
  · split
    · next heq =>
        rw [heq]
        rfl
    · rfl
  · rfl

/-- C6: FIT samples without a parseable timestamp are dropped and the
remaining samples are sorted ascending by timestamp (stated as: the output is
sorted and is a permutation of the valid-timestamp samples); a concrete
3-sample input where the second sample has no timestamp yields the 2 valid
samples in ascending order; and when no sample has a valid timestamp the
result is empty rather than a crash. -/
theorem C6_fit_sample_drop_sort :
    (∀ recs, List.Sorted recordLE (parse_fit_records recs) ∧
      List.Perm (parse_fit_records recs)
        (recs.filter (fun r => r.timestamp.isValid))) ∧
    (∀ recs, (∀ r ∈ recs, r.timestamp.isValid = false) → parse_fit_records recs = []) ∧
    parse_fit_records [⟨.valid 20, some 100⟩, ⟨.absent, some 90⟩, ⟨.valid 10, some 80⟩] =
      [⟨.valid 10, some 80⟩, ⟨.valid 20, some 100⟩] := by
  refine ⟨fun recs => ?_, fun recs hv => ?_, by decide⟩
  · rw [parse_fit_records_eq]
    split
    · exact ⟨List.sorted_insertionSort recordLE _, List.perm_insertionSort recordLE _⟩
    · refine ⟨List.sorted_nil, ?_⟩
      next hany =>
      have hfil : recs.filter (fun r => r.timestamp.isValid) = [] := by
        refine List.filter_eq_nil_iff.mpr (fun r hr => ?_)
        have := (List.any_eq_false).mp (Bool.eq_false_iff.mpr hany) r hr
        cases hts : r.timestamp <;> simp_all [TsField.isAbsent, TsField.isValid]
      rw [hfil]
  · rw [parse_fit_records_eq]
    have hfil : recs.filter (fun r => r.timestamp.isValid) = [] :=
      List.filter_eq_nil_iff.mpr (fun r hr => by simp [hv r hr])
    split
    · rw [hfil]
      rfl
    · rfl

/-- Witness for C6: the all-invalid-timestamp case returns an empty result. -/
theorem C6_fit_sample_drop_sort_witness :
    parse_fit_records [⟨.invalid, some 100⟩, ⟨.absent, none⟩] = [] :=
  C6_fit_sample_drop_sort.2.1 [⟨.invalid, some 100⟩, ⟨.absent, none⟩] (by decide)

/-! Aggregation and filtering (dashboard.py lines 182-189 and 437-465).
These operate on the processed canonical rows; a row is modelled with the
columns those code paths read. -/

/-- One processed canonical activity row.  The `date` is `none` for NaT
(possible when the date column was unmapped); period keys are the strings in
the `year_week` / `year_month` columns. -/
structure CanonicalRow where
  date : Option ℤ
  year_week : String
  year_month : String
  distance_km : ℚ
  duration_seconds : ℚ
  avg_heart_rate_bpm : ℚ
deriving DecidableEq, Repr

/-- One aggregated output row of the groupby-agg in dashboard.py lines
437-443 / 459-465; `avg_heart_rate` is `none` when the group has no strictly
positive heart-rate reading (pandas mean of an empty selection, NaN). -/
structure PeriodAgg where
  period : String
  total_distance : ℚ
  avg_distance : ℚ
  total_duration : ℚ
  avg_duration : ℚ
  avg_heart_rate : Option ℚ
deriving DecidableEq, Repr

/-- Lexicographic order on character lists by code point; models Python /
pandas string comparison used when groupby sorts its keys. -/
def charListLeb : List Char → List Char → Bool
  | [], _ => true
  | _ :: _, [] => false
  | a :: as, b :: bs => if a = b then charListLeb as bs else decide (a < b)

/-- String wrapper for `charListLeb`. -/
def strLeb (a b : String) : Bool := charListLeb a.data b.data

/-- Rows of one groupby group: those whose key equals `k`. -/
def periodGroup (key : CanonicalRow → String) (rows : List CanonicalRow) (k : String) :
    List CanonicalRow :=
  rows.filter (fun r => key r = k)

/-- Strictly positive heart-rate readings of a group
(`lambda x: x[x > 0].mean()` selects `x > 0`). -/
def posHeartRates (g : List CanonicalRow) : List ℚ :=
  (g.map CanonicalRow.avg_heart_rate_bpm).filter (fun x => 0 < x)

/-- dashboard.py lines 437-443 (weekly, `key = year_week`) and 459-465
(monthly, `key = year_month`): group the filtered rows by the period key
(pandas groupby emits one row per distinct key, sorted ascending) and compute
sum / mean of distance and duration and the mean of the strictly positive
heart rates (pandas mean = sum divided by count; empty selection gives NaN,
modelled as `none`). -/
def aggregate_by_period (key : CanonicalRow → String) (rows : List CanonicalRow) :
    List PeriodAgg :=
  (List.insertionSort (fun a b => strLeb a b = true) (rows.map key).dedup).map (fun k =>
    let g := periodGroup key rows k
    { period := k
      total_distance := (g.map CanonicalRow.distance_km).sum
      avg_distance := (g.map CanonicalRow.distance_km).sum / (g.length : ℚ)
      total_duration := (g.map CanonicalRow.duration_seconds).sum
      avg_duration := (g.map CanonicalRow.duration_seconds).sum / (g.length : ℚ)
      avg_heart_rate :=
        if posHeartRates g = [] then none
        else some ((posHeartRates g).sum / ((posHeartRates g).length : ℚ)) })

/-- C8: the aggregation has one output row per period key present in the
input (periods with no matching rows are absent), each output row carries the
group's distance sum/mean, duration sum/mean and the mean of the strictly
positive heart-rate values, and the concrete two-activities-in-one-week
example yields exactly one row whose total is the sum of the two and whose
heart-rate mean excludes the zero reading. -/
theorem C8_aggregate_by_period :
    (∀ key rows k, (∃ a ∈ aggregate_by_period key rows, a.period = k) ↔ k ∈ rows.map key) ∧
    (∀ key rows a, a ∈ aggregate_by_period key rows →
      a.total_distance = ((periodGroup key rows a.period).map CanonicalRow.distance_km).sum ∧
      a.avg_distance = ((periodGroup key rows a.period).map CanonicalRow.distance_km).sum
        / ((periodGroup key rows a.period).length : ℚ) ∧
      a.total_duration =
        ((periodGroup key rows a.period).map CanonicalRow.duration_seconds).sum ∧
      a.avg_duration = ((periodGroup key rows a.period).map CanonicalRow.duration_seconds).sum
        / ((periodGroup key rows a.period).length : ℚ) ∧
      (posHeartRates (periodGroup key rows a.period) ≠ [] →
        a.avg_heart_rate = some ((posHeartRates (periodGroup key rows a.period)).sum
          / ((posHeartRates (periodGroup key rows a.period)).length : ℚ)))) ∧
    aggregate_by_period (fun r => r.year_week)
        [⟨some 19723, "2024-05", "2024-02", 5, 1800, 0⟩,
         ⟨some 19724, "2024-05", "2024-02", 15 / 2, 3600, 150⟩] =
      [⟨"2024-05", 25 / 2, 25 / 4, 5400, 2700, some 150⟩] := by
  refine ⟨fun key rows k => ?_, fun key rows a ha => ?_, ?_⟩
  · constructor
    · rintro ⟨a, ha, rfl⟩
      rcases List.mem_map.mp ha with ⟨k', hk', rfl⟩
      exact List.mem_dedup.mp (((List.perm_insertionSort _ _).mem_iff).mp hk')
    · intro hk
      refine ⟨_, List.mem_map_of_mem _ (((List.perm_insertionSort _ _).mem_iff).mpr
        (List.mem_dedup.mpr hk)), rfl⟩
  · rcases List.mem_map.mp ha with ⟨k', _, rfl⟩
    refine ⟨rfl, rfl, rfl, rfl, fun hne => ?_⟩
    simp only [if_neg hne]
  · norm_num [aggregate_by_period, periodGroup, posHeartRates, List.dedup_cons_of_mem,
      List.dedup_cons_of_not_mem, List.dedup_nil, List.insertionSort, List.orderedInsert,
      List.filter, strLeb, charListLeb]

/-- Witness for C8: the group-characterization applied to the single output
row of the concrete two-activity example. -/
theorem C8_aggregate_by_period_witness :
    (⟨"2024-05", 25 / 2, 25 / 4, 5400, 2700, some 150⟩ : PeriodAgg).total_distance =
      ((periodGroup (fun r => r.year_week)
        [⟨some 19723, "2024-05", "2024-02", 5, 1800, 0⟩,
         ⟨some 19724, "2024-05", "2024-02", 15 / 2, 3600, 150⟩]
        "2024-05").map CanonicalRow.distance_km).sum := by
  have hmem : (⟨"2024-05", 25 / 2, 25 / 4, 5400, 2700, some 150⟩ : PeriodAgg) ∈
      aggregate_by_period (fun r => r.year_week)
        [⟨some 19723, "2024-05", "2024-02", 5, 1800, 0⟩,
         ⟨some 19724, "2024-05", "2024-02", 15 / 2, 3600, 150⟩] := by
    rw [C8_aggregate_by_period.2.2]
    exact List.mem_singleton_self _
  exact (C8_aggregate_by_period.2.1 _ _ _ hmem).1

/-- dashboard.py lines 182-189: with `start > end` the code shows an error and
sets the working set to an empty DataFrame; otherwise it keeps exactly the
rows whose date lies in `[start, end]` (a NaT date compares False in pandas
and is excluded). -/
def filter_by_date_range (rows : List CanonicalRow) (start_d end_d : ℤ) :
    List CanonicalRow :=
  if start_d > end_d then []
  else
    rows.filter (fun r =>
      match r.date with
      | some d => decide (start_d ≤ d) && decide (d ≤ end_d)
      | none => false)

/-- C9: the date filter returns exactly the rows whose date `d` satisfies
`start ≤ d ≤ end`, and whenever `start > end` it returns the empty set
(surfacing the invalid range) instead of raising. -/
theorem C9_filter_by_date_range :
    (∀ rows s e, s > e → filter_by_date_range rows s e = []) ∧
    (∀ rows s e r, r ∈ filter_by_date_range rows s e ↔
      (¬ s > e ∧ r ∈ rows ∧ ∃ d, r.date = some d ∧ s ≤ d ∧ d ≤ e)) := by
  constructor
  · intro rows s e h
    simp only [filter_by_date_range, if_pos h]
  · intro rows s e r
    by_cases h : s > e
    · simp only [filter_by_date_range, if_pos h]
      simp [h]
    · simp only [filter_by_date_range, if_neg h, List.mem_filter]
      cases hr : r.date with
      | none => simp [hr, h]
      | some d => simp [hr, h, and_assoc]

/-- Witness for C9: an inverted range yields the empty set even though the
row's date would match a sensible predicate. -/
theorem C9_filter_by_date_range_witness :
    filter_by_date_range [⟨some 4, "w", "m", 0, 0, 0⟩] 5 3 = [] :=
  C9_filter_by_date_range.1 [⟨some 4, "w", "m", 0, 0, 0⟩] 5 3 (by decide)

/-! Calendar arithmetic for the derived week / month columns (dashboard.py
lines 124-134).  Dates are day ordinals (days since 1970-01-01); conversion to
and from calendar dates follows the standard civil-calendar algorithm. -/

/-- Day ordinal of the Gregorian date `y-m-d` relative to 1970-01-01. -/
def daysFromCivil (y m d : ℤ) : ℤ :=
  (if m ≤ 2 then y - 1 else y) * 365
    + (if m ≤ 2 then y - 1 else y) / 4 - (if m ≤ 2 then y - 1 else y) / 100
    + (if m ≤ 2 then y - 1 else y) / 400
    + (153 * ((m + 9) % 12) + 2) / 5 + d - 1 - 719468

/-- Gregorian date `(y, m, d)` of a day ordinal. -/
def civilFromDays (z : ℤ) : ℤ × ℤ × ℤ :=
  let z' := z + 719468
  let era := z' / 146097
  let doe := z' - era * 146097
  let yoe := (doe - doe / 1460 + doe / 36524 - doe / 146096) / 365
  let y := yoe + era * 400
  let doy := doe - (365 * yoe + yoe / 4 - yoe / 100)
  let mp := (5 * doy + 2) / 153
  let d := doy - (153 * mp + 2) / 5 + 1
  let m := mp + (if mp < 10 then 3 else -9)
  (y + (if m ≤ 2 then 1 else 0), m, d)

/-- Python `date.weekday()`: 0 for Monday (1970-01-01 was a Thursday, 3). -/
def weekdayMon (z : ℤ) : ℤ := (z + 3) % 7

/-- Python `strftime('%W')`: week of the year with Monday as first day; days
before the first Monday are week 0. -/
def weekOfYearW (z : ℤ) : ℤ :=
  (z - daysFromCivil (civilFromDays z).1 1 1 + 1 + 6 - weekdayMon z) / 7

/-- Python `strftime('%Y-%W')`. -/
def strftimeYW (z : ℤ) : String :=
  String.mk (intChars (civilFromDays z).1 ++ '-' :: fmt02Chars (weekOfYearW z))

/-- Python `strftime('%Y-%m')`. -/
def strftimeYM (z : ℤ) : String :=
  String.mk (intChars (civilFromDays z).1 ++ '-' :: fmt02Chars (civilFromDays z).2.1)

/-! A pandas DataFrame is modelled as a header list plus one cell list per
row.  Cell values distinguish float NaN / NaT (`nan`) from the `pd.NA`
placeholder (`pdna`) because `astype(str)` renders them differently ("nan"
versus "<NA>"); datetimes are day ordinals. -/

/-- One DataFrame cell. -/
inductive Cell where
  | nan
  | pdna
  | str (s : String)
  | num (q : ℚ)
  | time (t : ℤ)
deriving DecidableEq, Repr

/-- Values `pd.isna` / `dropna` treat as missing. -/
def Cell.isNa : Cell → Bool
  | .nan => true
  | .pdna => true
  | _ => false

/-- A DataFrame: header names and aligned rows. -/
structure DF where
  cols : List String
  rows : List (List Cell)
deriving DecidableEq, Repr

/-- Index of a column name, first match. -/
def colIdx : List String → String → Option ℕ
  | [], _ => none
  | c :: cs, d => if c = d then some 0 else (colIdx cs d).map (· + 1)

/-- Cell of row `r` at position `i` (rows are aligned with the header). -/
def cellGetD (r : List Cell) (i : ℕ) : Cell := r.getD i Cell.pdna

/-- Cell of row `r` in column `c` of `df`. -/
def DF.cellAt (df : DF) (c : String) (r : List Cell) : Cell :=
  match colIdx df.cols c with
  | some i => cellGetD r i
  | none => Cell.pdna

/-- Column assignment `df[c] = f(row)`: overwrites an existing column, else
appends a new one (pandas column assignment). -/
def DF.setColByRow (df : DF) (c : String) (f : List Cell → Cell) : DF :=
  match colIdx df.cols c with
  | some i => { df with rows := df.rows.map (fun r => r.set i (f r)) }
  | none => { cols := df.cols ++ [c], rows := df.rows.map (fun r => r ++ [f r]) }

/-- Column assignment with a constant value (`df[c] = v`). -/
def DF.setColConst (df : DF) (c : String) (v : Cell) : DF := df.setColByRow c (fun _ => v)

/-- Elementwise transformation of an existing column (`df[c] = conv(df[c])`). -/
def DF.mapCol (df : DF) (c : String) (g : Cell → Cell) : DF :=
  df.setColByRow c (fun r => g (df.cellAt c r))

/-- Derived column `df[tgt] = df[src].apply(g)`. -/
def DF.deriveCol (df : DF) (tgt src : String) (g : Cell → Cell) : DF :=
  df.setColByRow tgt (fun r => g (df.cellAt src r))

/-- Elementwise transformation that can raise (Python exception propagates
out of the whole call, modelled in `Except`). -/
def DF.mapColE (df : DF) (c : String) (g : Cell → Except String Cell) : Except String DF :=
  match colIdx df.cols c with
  | some i =>
    (df.rows.mapM (fun r => (g (cellGetD r i)).map (fun v => r.set i v))).map
      (fun rs => { df with rows := rs })
  | none => Except.ok df

/-- `df.dropna(subset=[c], inplace=True)`. -/
def DF.dropNaIn (df : DF) (c : String) : DF :=
  match colIdx df.cols c with
  | some i => { df with rows := df.rows.filter (fun r => !(cellGetD r i).isNa) }
  | none => df

/-- dashboard.py line 44: removes every occurrence of the two-character
mis-encoding artifact. -/
def removeArtifact : List Char → List Char
  | [] => []
  | 'Â' :: '®' :: rest => removeArtifact rest
  | c :: rest => c :: removeArtifact rest

/-- dashboard.py line 44: `.str.strip().str.replace('Â®', '').str.replace('\xa0', '')`
applied to a header name. -/
def cleanHeader (s : String) : String :=
  String.mk ((removeArtifact (stripChars s.data)).filter (fun c => c ≠ '\xA0'))

/-- Python dict assignment `d[k] = v` on an association list. -/
def assocSet (l : List (String × String)) (k v : String) : List (String × String) :=
  if l.any (fun p => p.1 = k) then l.map (fun p => if p.1 = k then (k, v) else p)
  else l ++ [(k, v)]

/-- Python dict lookup. -/
def assocGet (l : List (String × String)) (k : String) : Option String :=
  (l.find? (fun p => p.1 = k)).map Prod.snd

/-- dashboard.py lines 48-55: walk the user mapping in insertion order; a
mapped name that exists among the current columns goes into the rename dict,
anything else gets a `pd.NA` placeholder column immediately (note the
membership test sees placeholders added by earlier iterations, as in the
source, because the frame is threaded through the fold). -/
def buildRenames (mapping : List (String × String)) (df : DF) :
    List (String × String) × DF :=
  mapping.foldl
    (fun acc p =>
      if p.2 ≠ "" ∧ p.2 ∈ acc.2.cols then (assocSet acc.1 p.2 p.1, acc.2)
      else (acc.1, acc.2.setColConst p.1 Cell.pdna))
    ([], df)

/-- dashboard.py line 58: `df.rename(columns=rename_dict)`. -/
def DF.renameCols (df : DF) (ren : List (String × String)) : DF :=
  { df with cols := df.cols.map (fun c => (assocGet ren c).getD c) }

/-- The `nan` / `NaN` float literal (optionally signed), lowercased. -/
def isNanLit (l : List Char) : Bool :=
  match l.map Char.toLower with
  | ['n', 'a', 'n'] => true
  | ['+', 'n', 'a', 'n'] => true
  | ['-', 'n', 'a', 'n'] => true
  | _ => false

/-- Models Python `float(text)` as used on cells: a `nan` literal gives NaN
(`Cell.nan`), a finite decimal literal gives its value, anything else is a
ValueError (`none`); `inf` and exponent forms are outside the modelled
subset. -/
def pyFloatCell (s : String) : Option Cell :=
  if isNanLit (stripChars s.data) then some Cell.nan
  else (pyFloatChars s.data).map Cell.num

/-- `fillna(0)`. -/
def fillna0 : Cell → Cell
  | .nan => .num 0
  | .pdna => .num 0
  | c => c

/-- Smallest power-of-ten exponent that clears the denominator, if any. -/
def ratDecimalExp (q : ℚ) : Option ℕ := (List.range 31).find? (fun e => (q * 10 ^ e).den = 1)

/-- Models Python `str` of a float cell value on the finite-decimal subset
(an integral value prints with a trailing `.0`; shortest-roundtrip repr
subtleties are outside the modelled subset). -/
def ratPyRepr (q : ℚ) : String :=
  match ratDecimalExp q with
  | some 0 => String.mk (intChars q.num ++ ['.', '0'])
  | some (e + 1) =>
    let n := (q * 10 ^ (e + 1)).num
    let ds := decChars n.natAbs
    let ds := if ds.length < e + 2 then List.replicate (e + 2 - ds.length) '0' ++ ds else ds
    String.mk ((if n < 0 then ['-'] else []) ++ ds.take (ds.length - (e + 1))
      ++ '.' :: ds.drop (ds.length - (e + 1)))
  | none => String.mk (intChars q.num ++ '/' :: decChars q.den)

/-- Models `str(pd.Timestamp(...))` of a (midnight, day-resolution) datetime. -/
def timePyRepr (t : ℤ) : String :=
  String.mk (intChars (civilFromDays t).1 ++ '-' :: fmt02Chars (civilFromDays t).2.1
    ++ '-' :: fmt02Chars (civilFromDays t).2.2 ++ " 00:00:00".data)

/-- `astype(str)` of one cell: float NaN prints "nan", the `pd.NA` placeholder
prints "<NA>". -/
def astypeStrCell : Cell → String
  | .nan => "nan"
  | .pdna => "<NA>"
  | .str s => s
  | .num q => ratPyRepr q
  | .time t => timePyRepr t

/-- dashboard.py line 68, one cell of
`df['distance_km'].astype(str).str.replace(',', '.', regex=False).astype(float).fillna(0)`:
stringify, turn commas into dots, parse as float (a non-numeric string raises
ValueError, carried in `Except.error`), then replace NaN by 0. -/
def parse_locale_float_cell (c : Cell) : Except String Cell :=
  match pyFloatCell (replaceChar ',' '.' (astypeStrCell c)) with
  | some v => Except.ok (fillna0 v)
  | none => Except.error (replaceChar ',' '.' (astypeStrCell c))

/-- `pd.to_numeric(x, errors='coerce')` on one cell (a datetime coerces to
epoch nanoseconds; at day resolution that is the ordinal times 86400e9). -/
def toNumericCell : Cell → Cell
  | .num q => .num q
  | .str s =>
    match pyFloatCell s with
    | some v => v
    | none => .nan
  | .time t => .num ((t * 86400000000000 : ℤ) : ℚ)
  | _ => .nan

/-- ISO `YYYY-MM-DD` subset of the pandas date parser used by
`pd.to_datetime(..., errors='coerce')` on strings. -/
def dateParseChars (l : List Char) : Option ℤ :=
  match splitOnChar '-' (stripChars l) with
  | [ys, ms, ds] =>
    match digitsVal ys, digitsVal ms, digitsVal ds with
    | some y, some m, some d =>
      if 1 ≤ m ∧ m ≤ 12 ∧ 1 ≤ d ∧ d ≤ 31 then some (daysFromCivil y m d) else none
    | _, _, _ => none
  | _ => none

/-- `pd.to_datetime(x, errors='coerce')` on one cell: datetimes pass through;
strings parse on the modelled ISO subset or coerce to NaT; anything else
(including the `pd.NA` placeholder, and numeric cells, whose epoch
interpretation is outside the modelled subset) coerces to NaT. -/
def toDatetimeCell : Cell → Cell
  | .time t => .time t
  | .str s =>
    match dateParseChars s.data with
    | some t => .time t
    | none => .nan
  | _ => .nan

/-- dashboard.py lines 91-98 applied to one cell: `pd.isna` values give 0; a
string cell is parsed; a numeric cell survives the single-part float fallback
unchanged (its `str` form round-trips); a datetime cell's `str` form splits
into three parts whose `int()` calls raise, giving 0. -/
def parseTimeCell : Cell → Cell
  | .nan => .num 0
  | .pdna => .num 0
  | .str s => .num (parse_time_to_seconds (some s))
  | .num q => .num q
  | .time _ => .num 0

/-- dashboard.py lines 106-112 applied to one cell, as `parseTimeCell`. -/
def parsePaceCell : Cell → Cell
  | .nan => .num 0
  | .pdna => .num 0
  | .str s => .num (parse_pace_to_seconds_per_unit (some s))
  | .num q => .num q
  | .time _ => .num 0

/-- dashboard.py lines 61-65: convert and drop invalid dates when the column
exists, else materialize an all-NaT `date` column (no row is dropped then). -/
def dateColumn (df : DF) : DF :=
  if "date" ∈ df.cols then (df.mapCol "date" toDatetimeCell).dropNaIn "date"
  else df.setColConst "date" Cell.nan

/-- dashboard.py lines 67-70: the distance conversion (which can raise) when
the column exists, else a constant 0.0 column. -/
def distanceColumn (df : DF) : Except String DF :=
  if "distance_km" ∈ df.cols then df.mapColE "distance_km" parse_locale_float_cell
  else Except.ok (df.setColConst "distance_km" (Cell.num 0))

/-- dashboard.py lines 72-85 pattern: `pd.to_numeric(..., errors='coerce').fillna(0)`
when the column exists, else a constant 0.0 column. -/
def numDefaultCol (df : DF) (c : String) : DF :=
  if c ∈ df.cols then df.mapCol c (fun x => fillna0 (toNumericCell x))
  else df.setColConst c (Cell.num 0)

/-- dashboard.py lines 87-88. -/
def activityTypeColumn (df : DF) : DF :=
  if "activity_type" ∈ df.cols then df else df.setColConst "activity_type" (Cell.str "Onbekend")

/-- dashboard.py lines 100-103 / 114-122 pattern: derive `tgt` from `src` via
a codec when `src` exists, else a constant default column. -/
def applyCodecCol (df : DF) (tgt src : String) (g : Cell → Cell) (d : Cell) : DF :=
  if src ∈ df.cols then df.deriveCol tgt src g else df.setColConst tgt d

/-- Cell of the `year_week` column (`dt.strftime('%Y-%W')`; NaT gives NaN). -/
def yearWeekCell : Cell → Cell
  | .time t => .str (strftimeYW t)
  | _ => .nan

/-- Cell of the `date_week_start` column (`x - timedelta(days=x.weekday())`). -/
def weekStartCell : Cell → Cell
  | .time t => .time (t - weekdayMon t)
  | _ => .nan

/-- Cell of the `date_week_end` column (`date_week_start + timedelta(days=6)`). -/
def weekEndCell : Cell → Cell
  | .time t => .time (t + 6)
  | _ => .nan

/-- Cell of the `year_month` column (`dt.strftime('%Y-%m')`). -/
def yearMonthCell : Cell → Cell
  | .time t => .str (strftimeYM t)
  | _ => .nan

/-- dashboard.py lines 124-134: derived period columns when any valid date is
present, else the documented 'Onbekend' / NaT defaults. -/
def weekColumns (df : DF) : DF :=
  if "date" ∈ df.cols ∧ df.rows ≠ [] ∧ df.rows.any (fun r => !(df.cellAt "date" r).isNa) then
    ((((df.deriveCol "year_week" "date" yearWeekCell).deriveCol "date_week_start" "date"
      weekStartCell).deriveCol "date_week_end" "date_week_start" weekEndCell).deriveCol
      "year_month" "date" yearMonthCell)
  else
    ((((df.setColConst "year_week" (Cell.str "Onbekend")).setColConst "year_month"
      (Cell.str "Onbekend")).setColConst "date_week_start" Cell.nan).setColConst
      "date_week_end" Cell.nan)

/-- dashboard.py lines 41-65: the copy's headers are cleaned, the user mapping
is walked (building the rename dict and the `pd.NA` placeholders), the rename
is applied and the `date` column is coerced. -/
def process_head (df : DF) (mapping : List (String × String)) : DF :=
  let dfc := { df with cols := df.cols.map cleanHeader }
  dateColumn (DF.renameCols (buildRenames mapping dfc).2 (buildRenames mapping dfc).1)

/-- dashboard.py lines 72-136: the remaining coercions after the distance
conversion, in source order. -/
def process_tail (df3 : DF) : DF :=
  weekColumns (applyCodecCol (applyCodecCol (applyCodecCol (activityTypeColumn
    (numDefaultCol (numDefaultCol (numDefaultCol df3 "calories_kcal") "steps")
      "avg_heart_rate_bpm")) "duration_seconds" "duration_raw" parseTimeCell (Cell.num 0))
    "avg_pace_sec_per_km" "avg_pace_raw" parsePaceCell (Cell.num 0))
    "best_pace_sec_per_km" "best_pace_raw" parsePaceCell (Cell.num 0))

/-- dashboard.py lines 38-136, `process_mapped_data(df, column_mapping_user)`:
clean headers, rename mapped columns (placeholding unmapped ones), coerce the
canonical columns with their documented defaults, derive the codec and period
columns.  The body operates on `df.copy()`; an escaping Python exception (the
distance conversion is the one conversion that can raise) is the
`Except.error` case. -/
def process_mapped_data (df : DF) (mapping : List (String × String)) : Except String DF :=
  match distanceColumn (process_head df mapping) with
  | Except.error e => Except.error e
  | Except.ok df3 => Except.ok (process_tail df3)

/-- Equality of `Except` values is decidable componentwise. -/
def exceptDecEq {α β : Type} [DecidableEq α] [DecidableEq β] : DecidableEq (Except α β) :=
  fun a b =>
  match a, b with
  | .error x, .error y => decidable_of_iff (x = y) (by simp)
  | .ok x, .ok y => decidable_of_iff (x = y) (by simp)
  | .error _, .ok _ => isFalse (fun h => Except.noConfusion h)
  | .ok _, .error _ => isFalse (fun h => Except.noConfusion h)

instance : DecidableEq (Except String Cell) := exceptDecEq

instance : DecidableEq (Except String DF) := exceptDecEq

/-- Evaluation of the post-distance pipeline on the two-column frame produced
by mapping only the distance column, with the distance cell value `v` held
abstract (the pipeline never inspects it). -/
theorem process_tail_distance_date (v : Cell) :
    process_tail ⟨["distance_km", "date"], [[v, Cell.nan]]⟩ =
      ⟨["distance_km", "date", "calories_kcal", "steps", "avg_heart_rate_bpm",
        "activity_type", "duration_seconds", "avg_pace_sec_per_km", "best_pace_sec_per_km",
        "year_week", "year_month", "date_week_start", "date_week_end"],
        [[v, Cell.nan, Cell.num 0, Cell.num 0, Cell.num 0, Cell.str "Onbekend", Cell.num 0,
          Cell.num 0, Cell.num 0, Cell.str "Onbekend", Cell.str "Onbekend", Cell.nan,
          Cell.nan]]⟩ := by
  simp only [process_tail]
  rw [show numDefaultCol ⟨["distance_km", "date"], [[v, Cell.nan]]⟩ "calories_kcal" =
    ⟨["distance_km", "date", "calories_kcal"], [[v, Cell.nan, Cell.num 0]]⟩ from rfl]
  rw [show numDefaultCol ⟨["distance_km", "date", "calories_kcal"],
      [[v, Cell.nan, Cell.num 0]]⟩ "steps" =
    ⟨["distance_km", "date", "calories_kcal", "steps"],
      [[v, Cell.nan, Cell.num 0, Cell.num 0]]⟩ from rfl]
  rw [show numDefaultCol ⟨["distance_km", "date", "calories_kcal", "steps"],
      [[v, Cell.nan, Cell.num 0, Cell.num 0]]⟩ "avg_heart_rate_bpm" =
    ⟨["distance_km", "date", "calories_kcal", "steps", "avg_heart_rate_bpm"],
      [[v, Cell.nan, Cell.num 0, Cell.num 0, Cell.num 0]]⟩ from rfl]
  rw [show activityTypeColumn ⟨["distance_km", "date", "calories_kcal", "steps",
      "avg_heart_rate_bpm"], [[v, Cell.nan, Cell.num 0, Cell.num 0, Cell.num 0]]⟩ =
    ⟨["distance_km", "date", "calories_kcal", "steps", "avg_heart_rate_bpm",
      "activity_type"],
      [[v, Cell.nan, Cell.num 0, Cell.num 0, Cell.num 0, Cell.str "Onbekend"]]⟩ from rfl]
  rw [show applyCodecCol ⟨["distance_km", "date", "calories_kcal", "steps",
      "avg_heart_rate_bpm", "activity_type"],
      [[v, Cell.nan, Cell.num 0, Cell.num 0, Cell.num 0, Cell.str "Onbekend"]]⟩
      "duration_seconds" "duration_raw" parseTimeCell (Cell.num 0) =
    ⟨["distance_km", "date", "calories_kcal", "steps", "avg_heart_rate_bpm",
      "activity_type", "duration_seconds"],
      [[v, Cell.nan, Cell.num 0, Cell.num 0, Cell.num 0, Cell.str "Onbekend",
        Cell.num 0]]⟩ from rfl]
  rw [show applyCodecCol ⟨["distance_km", "date", "calories_kcal", "steps",
      "avg_heart_rate_bpm", "activity_type", "duration_seconds"],
      [[v, Cell.nan, Cell.num 0, Cell.num 0, Cell.num 0, Cell.str "Onbekend", Cell.num 0]]⟩
      "avg_pace_sec_per_km" "avg_pace_raw" parsePaceCell (Cell.num 0) =
    ⟨["distance_km", "date", "calories_kcal", "steps", "avg_heart_rate_bpm",
      "activity_type", "duration_seconds", "avg_pace_sec_per_km"],
      [[v, Cell.nan, Cell.num 0, Cell.num 0, Cell.num 0, Cell.str "Onbekend", Cell.num 0,
        Cell.num 0]]⟩ from rfl]
  rw [show applyCodecCol ⟨["distance_km", "date", "calories_kcal", "steps",
      "avg_heart_rate_bpm", "activity_type", "duration_seconds", "avg_pace_sec_per_km"],
      [[v, Cell.nan, Cell.num 0, Cell.num 0, Cell.num 0, Cell.str "Onbekend", Cell.num 0,
        Cell.num 0]]⟩
      "best_pace_sec_per_km" "best_pace_raw" parsePaceCell (Cell.num 0) =
    ⟨["distance_km", "date", "calories_kcal", "steps", "avg_heart_rate_bpm",
      "activity_type", "duration_seconds", "avg_pace_sec_per_km", "best_pace_sec_per_km"],
      [[v, Cell.nan, Cell.num 0, Cell.num 0, Cell.num 0, Cell.str "Onbekend", Cell.num 0,
        Cell.num 0, Cell.num 0]]⟩ from rfl]
  rfl

/-- C4 counterexample: for the non-numeric distance cell "abc" the code raises
ValueError (the `astype(float)` call has no `errors='coerce'`), it does not
return 0.0 as the claim states. -/
theorem C4_parse_locale_float_counterexample :
    parse_locale_float_cell (Cell.str "abc") = Except.error "abc" := by decide

/-- C4 (amended): the distance conversion stringifies the cell and replaces
every ',' with '.' before the float parse, so the mapped "Afstand" value
"12,5" yields canonical distance_km 12.5 (shown per cell and through the whole
`process_mapped_data` run), and a null cell yields 0.0; but a non-numeric cell
raises ValueError, which escapes to the caller's exception handler, instead of
returning 0.0. -/
theorem C4_parse_locale_float :
    parse_locale_float_cell Cell.nan = Except.ok (Cell.num 0) ∧
    parse_locale_float_cell (Cell.str "12,5") = Except.ok (Cell.num (25 / 2)) ∧
    (∀ s q, pyFloatCell (replaceChar ',' '.' s) = some (Cell.num q) →
      parse_locale_float_cell (Cell.str s) = Except.ok (Cell.num q)) ∧
    (∀ s, pyFloatCell (replaceChar ',' '.' s) = none →
      parse_locale_float_cell (Cell.str s) = Except.error (replaceChar ',' '.' s)) ∧
    process_mapped_data ⟨["Afstand"], [[Cell.str "12,5"]]⟩ [("distance_km", "Afstand")] =
      Except.ok ⟨["distance_km", "date", "calories_kcal", "steps", "avg_heart_rate_bpm",
        "activity_type", "duration_seconds", "avg_pace_sec_per_km", "best_pace_sec_per_km",
        "year_week", "year_month", "date_week_start", "date_week_end"],
        [[Cell.num (25 / 2), Cell.nan, Cell.num 0, Cell.num 0, Cell.num 0,
          Cell.str "Onbekend", Cell.num 0, Cell.num 0, Cell.num 0, Cell.str "Onbekend",
          Cell.str "Onbekend", Cell.nan, Cell.nan]]⟩ := by
  have hv : parse_locale_float_cell (Cell.str "12,5") = Except.ok (Cell.num (25 / 2)) := by
    have e2 : pyFloatChars "12.5".data = some (25 / 2 : ℚ) := by
      rw [show pyFloatChars "12.5".data =
        some (((12 : ℕ) : ℚ) + ((5 : ℕ) : ℚ) / (10 : ℚ) ^ (1 : ℕ)) from rfl]
      norm_num
    unfold parse_locale_float_cell
    rw [show replaceChar ',' '.' (astypeStrCell (Cell.str "12,5")) = "12.5" from by decide]
    simp only [pyFloatCell]
    rw [if_neg (by decide), e2]
    rfl
  have hdist : distanceColumn ⟨["distance_km", "date"], [[Cell.str "12,5", Cell.nan]]⟩ =
      Except.ok ⟨["distance_km", "date"], [[Cell.num (25 / 2), Cell.nan]]⟩ := by
    simp only [distanceColumn]
    rw [if_pos (show "distance_km" ∈ (⟨["distance_km", "date"],
      [[Cell.str "12,5", Cell.nan]]⟩ : DF).cols by decide)]
    simp only [DF.mapColE]
    rw [show colIdx (⟨["distance_km", "date"],
      [[Cell.str "12,5", Cell.nan]]⟩ : DF).cols "distance_km" = some 0 from rfl]
    simp only [List.mapM_cons, List.mapM_nil]
    rw [show cellGetD [Cell.str "12,5", Cell.nan] 0 = Cell.str "12,5" from rfl, hv]
    rfl
  refine ⟨by decide, hv, ?_, ?_, ?_⟩
  · intro s q h
    unfold parse_locale_float_cell
    rw [show astypeStrCell (Cell.str s) = s from rfl, h]
    rfl
  · intro s h
    unfold parse_locale_float_cell
    rw [show astypeStrCell (Cell.str s) = s from rfl, h]
  · simp only [process_mapped_data]
    rw [show process_head ⟨["Afstand"], [[Cell.str "12,5"]]⟩ [("distance_km", "Afstand")] =
      ⟨["distance_km", "date"], [[Cell.str "12,5", Cell.nan]]⟩ from by decide]
    rw [hdist]
    exact congrArg Except.ok (process_tail_distance_date (Cell.num (25 / 2)))

/-- Witness for C4: the comma-to-dot conversion applied at the concrete cell
"3,25" through the general conjunct. -/
theorem C4_parse_locale_float_witness :
    parse_locale_float_cell (Cell.str "3,25") = Except.ok (Cell.num (13 / 4)) :=
  C4_parse_locale_float.2.2.1 "3,25" (13 / 4) (by
    rw [show replaceChar ',' '.' "3,25" = "3.25" from by decide]
    rw [show pyFloatCell "3.25" = some (Cell.num (((3 : ℕ) : ℚ)
      + ((25 : ℕ) : ℚ) / (10 : ℚ) ^ (2 : ℕ))) from rfl]
    norm_num)

/-- State-passing view of `process_mapped_data`: the first component is the
caller's `df` object after the call.  The Python body starts with
`df_processed = df.copy()` (a deep copy) and every subsequent operation,
including the `inplace=True` rename and dropna, targets `df_processed`, so the
caller's frame is returned unchanged on both the success and the exception
path. -/
def process_mapped_data_frame (df : DF) (mapping : List (String × String)) :
    DF × Except String DF :=
  (df, process_mapped_data df mapping)

/-- C10: `process_mapped_data` never mutates its input frame (all work happens
on the internal copy), so re-running the pipeline on the frame the caller
still holds gives the same result as the first run. -/
theorem C10_input_frame_unchanged :
    ∀ (df : DF) (mapping : List (String × String)),
      (process_mapped_data_frame df mapping).1 = df ∧
      process_mapped_data (process_mapped_data_frame df mapping).1 mapping =
        process_mapped_data df mapping :=
  fun _ _ => ⟨rfl, rfl⟩

/-! Lemmas describing how each pipeline stage appends its default column when
the corresponding source column is absent, used to settle the
default-materialization claim. -/

theorem colIdx_none_of_not_mem (l : List String) (c : String) (h : c ∉ l) :
    colIdx l c = none := by
  induction l with
  | nil => rfl
  | cons a as ih =>
    simp only [List.mem_cons, not_or] at h
    have ha : ¬ a = c := fun e => h.1 e.symm
    simp only [colIdx, if_neg ha, ih h.2, Option.map_none']

theorem colIdx_append_of_not_mem (l l' : List String) (c : String) (h : c ∉ l) :
    colIdx (l ++ l') c = (colIdx l' c).map (· + l.length) := by
  induction l with
  | nil =>
    cases h' : colIdx l' c <;> simp [h']
  | cons a as ih =>
    simp only [List.mem_cons, not_or] at h
    have ha : ¬ a = c := fun e => h.1 e.symm
    rw [List.cons_append]
    show (if a = c then some 0 else (colIdx (as ++ l') c).map (· + 1)) =
      (colIdx l' c).map (· + (a :: as).length)
    rw [if_neg ha, ih h.2]
    cases h' : colIdx l' c <;> simp [List.length_cons, Nat.add_assoc]

theorem cellGetD_append_right (r s : List Cell) (i : ℕ) :
    cellGetD (r ++ s) (i + r.length) = cellGetD s i := by
  induction r with
  | nil => simp [cellGetD]
  | cons a r ih =>
    rw [List.cons_append,
      show i + (a :: r).length = (i + r.length) + 1 from by simp [List.length_cons]; omega]
    simp only [cellGetD, List.getD_cons_succ]
    exact ih

theorem setColConst_of_not_mem (df : DF) (c : String) (v : Cell) (h : c ∉ df.cols) :
    df.setColConst c v = ⟨df.cols ++ [c], df.rows.map (fun r => r ++ [v])⟩ := by
  simp only [DF.setColConst, DF.setColByRow, colIdx_none_of_not_mem df.cols c h]

theorem setColConst_acc (base names : List String) (cells : List Cell)
    (rows : List (List Cell)) (c : String) (v : Cell) (h1 : c ∉ base) (h2 : c ∉ names) :
    DF.setColConst ⟨base ++ names, rows.map (fun r => r ++ cells)⟩ c v =
      ⟨base ++ (names ++ [c]), rows.map (fun r => r ++ (cells ++ [v]))⟩ := by
  rw [setColConst_of_not_mem _ _ _ (by simp [List.mem_append, h1, h2])]
  simp [List.map_map, Function.comp, List.append_assoc]

theorem dateColumn_not_mem (df : DF) (h : "date" ∉ df.cols) :
    dateColumn df = ⟨df.cols ++ ["date"], df.rows.map (fun r => r ++ [Cell.nan])⟩ := by
  unfold dateColumn
  rw [if_neg h]
  exact setColConst_of_not_mem df "date" Cell.nan h

theorem distanceColumn_acc (base names : List String) (cells : List Cell)
    (rows : List (List Cell)) (h1 : "distance_km" ∉ base) (h2 : "distance_km" ∉ names) :
    distanceColumn ⟨base ++ names, rows.map (fun r => r ++ cells)⟩ =
      Except.ok ⟨base ++ (names ++ ["distance_km"]),
        rows.map (fun r => r ++ (cells ++ [Cell.num 0]))⟩ := by
  unfold distanceColumn
  split
  next h => exact absurd h (by simp [List.mem_append, h1, h2])
  next _ => rw [setColConst_acc base names cells rows _ _ h1 h2]

theorem numDefaultCol_acc (c : String) (base names : List String) (cells : List Cell)
    (rows : List (List Cell)) (h1 : c ∉ base) (h2 : c ∉ names) :
    numDefaultCol ⟨base ++ names, rows.map (fun r => r ++ cells)⟩ c =
      ⟨base ++ (names ++ [c]), rows.map (fun r => r ++ (cells ++ [Cell.num 0]))⟩ := by
  unfold numDefaultCol
  split
  next h => exact absurd h (by simp [List.mem_append, h1, h2])
  next _ => rw [setColConst_acc base names cells rows _ _ h1 h2]

theorem activityTypeColumn_acc (base names : List String) (cells : List Cell)
    (rows : List (List Cell)) (h1 : "activity_type" ∉ base) (h2 : "activity_type" ∉ names) :
    activityTypeColumn ⟨base ++ names, rows.map (fun r => r ++ cells)⟩ =
      ⟨base ++ (names ++ ["activity_type"]),
        rows.map (fun r => r ++ (cells ++ [Cell.str "Onbekend"]))⟩ := by
  unfold activityTypeColumn
  split
  next h => exact absurd h (by simp [List.mem_append, h1, h2])
  next _ => rw [setColConst_acc base names cells rows _ _ h1 h2]

theorem applyCodecCol_acc (tgt src : String) (g : Cell → Cell) (d : Cell)
    (base names : List String) (cells : List Cell) (rows : List (List Cell))
    (hs1 : src ∉ base) (hs2 : src ∉ names) (ht1 : tgt ∉ base) (ht2 : tgt ∉ names) :
    applyCodecCol ⟨base ++ names, rows.map (fun r => r ++ cells)⟩ tgt src g d =
      ⟨base ++ (names ++ [tgt]), rows.map (fun r => r ++ (cells ++ [d]))⟩ := by
  unfold applyCodecCol
  split
  next h => exact absurd h (by simp [List.mem_append, hs1, hs2])
  next _ => rw [setColConst_acc base names cells rows _ _ ht1 ht2]

/-- The canonical columns the pipeline materializes for a frame in which no
canonical field resolved, in creation order. -/
def canonicalDefaultNames : List String :=
  ["date", "distance_km", "calories_kcal", "steps", "avg_heart_rate_bpm", "activity_type",
   "duration_seconds", "avg_pace_sec_per_km", "best_pace_sec_per_km", "year_week",
   "year_month", "date_week_start", "date_week_end"]

/-- The documented default cell of each column of `canonicalDefaultNames`:
NaT for the date, 0 for the numeric fields, 'Onbekend' for the activity type
and the period keys, NaT for the week bounds. -/
def canonicalDefaultCells : List Cell :=
  [Cell.nan, Cell.num 0, Cell.num 0, Cell.num 0, Cell.num 0, Cell.str "Onbekend",
   Cell.num 0, Cell.num 0, Cell.num 0, Cell.str "Onbekend", Cell.str "Onbekend",
   Cell.nan, Cell.nan]

/-- Source-column names whose presence `process_mapped_data` tests. -/
def pipelineTestedNames : List String :=
  canonicalDefaultNames ++ ["duration_raw", "avg_pace_raw", "best_pace_raw"]

theorem weekColumns_acc (base : List String) (rows : List (List Cell))
    (hrowlen : ∀ r ∈ rows, r.length = base.length)
    (h1 : "date" ∉ base) (h2 : "year_week" ∉ base) (h3 : "year_month" ∉ base)
    (h4 : "date_week_start" ∉ base) (h5 : "date_week_end" ∉ base) :
    weekColumns ⟨base ++ ["date", "distance_km", "calories_kcal", "steps",
        "avg_heart_rate_bpm", "activity_type", "duration_seconds", "avg_pace_sec_per_km",
        "best_pace_sec_per_km"],
      rows.map (fun r => r ++ [Cell.nan, Cell.num 0, Cell.num 0, Cell.num 0, Cell.num 0,
        Cell.str "Onbekend", Cell.num 0, Cell.num 0, Cell.num 0])⟩ =
    ⟨base ++ canonicalDefaultNames, rows.map (fun r => r ++ canonicalDefaultCells)⟩ := by
  unfold weekColumns
  split
  next h =>
    exfalso
    obtain ⟨-, -, hany⟩ := h
    rcases List.any_eq_true.mp hany with ⟨x, hx, hpred⟩
    rcases List.mem_map.mp hx with ⟨r0, hr0, rfl⟩
    have hidx : colIdx (base ++ ["date", "distance_km", "calories_kcal", "steps",
        "avg_heart_rate_bpm", "activity_type", "duration_seconds", "avg_pace_sec_per_km",
        "best_pace_sec_per_km"]) "date" = some (0 + base.length) := by
      rw [colIdx_append_of_not_mem _ _ _ h1]
      rfl
    have hcell : DF.cellAt ⟨base ++ ["date", "distance_km", "calories_kcal", "steps",
        "avg_heart_rate_bpm", "activity_type", "duration_seconds", "avg_pace_sec_per_km",
        "best_pace_sec_per_km"],
        rows.map (fun r => r ++ [Cell.nan, Cell.num 0, Cell.num 0, Cell.num 0, Cell.num 0,
          Cell.str "Onbekend", Cell.num 0, Cell.num 0, Cell.num 0])⟩ "date"
        (r0 ++ [Cell.nan, Cell.num 0, Cell.num 0, Cell.num 0, Cell.num 0,
          Cell.str "Onbekend", Cell.num 0, Cell.num 0, Cell.num 0]) = Cell.nan := by
      simp only [DF.cellAt]
      rw [hidx]
      show cellGetD (r0 ++ [Cell.nan, Cell.num 0, Cell.num 0, Cell.num 0, Cell.num 0,
        Cell.str "Onbekend", Cell.num 0, Cell.num 0, Cell.num 0]) (0 + base.length) =
        Cell.nan
      rw [show (0 : ℕ) + base.length = 0 + r0.length from by rw [hrowlen r0 hr0]]
      rw [cellGetD_append_right]
      rfl
    rw [hcell] at hpred
    simp [Cell.isNa] at hpred
  next _ =>
    rw [setColConst_acc base _ _ rows "year_week" (Cell.str "Onbekend") h2 (by decide)]
    simp only [List.cons_append, List.nil_append]
    rw [setColConst_acc base _ _ rows "year_month" (Cell.str "Onbekend") h3 (by decide)]
    simp only [List.cons_append, List.nil_append]
    rw [setColConst_acc base _ _ rows "date_week_start" Cell.nan h4 (by decide)]
    simp only [List.cons_append, List.nil_append]
    rw [setColConst_acc base _ _ rows "date_week_end" Cell.nan h5 (by decide)]
    simp [canonicalDefaultNames, canonicalDefaultCells]

/-- C7 counterexample: a canonical field (here `distance_km`) whose mapping
resolves to a column that does not exist in the file gets the `pd.NA`
placeholder, and the distance conversion then raises ValueError on the
placeholder's string form "<NA>", so the call produces no output frame at all
instead of materializing the documented default. -/
theorem C7_unmapped_fields_counterexample :
    process_mapped_data ⟨["A"], [[Cell.str "x"]]⟩ [("distance_km", "B")] =
      Except.error "<NA>" := by decide

/-- C7 (amended): every canonical field that is absent from the mapping is
materialized in the output with its documented default (NaT date, 0 numerics,
'Onbekend' activity type and period keys, NaT week bounds) and is therefore
never missing downstream; but a canonical field mapped to a nonexistent
source column is placeholdered with `pd.NA`, which the distance conversion
turns into a ValueError that aborts the call (and an unresolved date drops
all rows), rather than always yielding the default.  This theorem is the
default-materialization half, for a frame whose cleaned headers contain none
of the pipeline's tested names and the empty mapping. -/
theorem C7_unmapped_fields_defaulted (df : DF)
    (halign : ∀ r ∈ df.rows, r.length = df.cols.length)
    (hfresh : ∀ f ∈ pipelineTestedNames, f ∉ df.cols.map cleanHeader) :
    process_mapped_data df [] =
      Except.ok ⟨df.cols.map cleanHeader ++ canonicalDefaultNames,
        df.rows.map (fun r => r ++ canonicalDefaultCells)⟩ := by
  have hrowlen : ∀ r ∈ df.rows, r.length = (df.cols.map cleanHeader).length := by
    intro r hr
    rw [List.length_map]
    exact halign r hr
  have hhead : process_head df [] =
      ⟨df.cols.map cleanHeader ++ ["date"], df.rows.map (fun r => r ++ [Cell.nan])⟩ := by
    show dateColumn (DF.renameCols { df with cols := df.cols.map cleanHeader } []) = _
    rw [show DF.renameCols { df with cols := df.cols.map cleanHeader } [] =
        { df with cols := df.cols.map cleanHeader } from by
      simp [DF.renameCols, assocGet]]
    exact dateColumn_not_mem _ (hfresh "date" (by decide))
  simp only [process_mapped_data]
  rw [hhead]
  rw [distanceColumn_acc (df.cols.map cleanHeader) ["date"] [Cell.nan] df.rows
    (hfresh _ (by decide)) (by decide)]
  show Except.ok (process_tail _) = _
  refine congrArg Except.ok ?_
  simp only [process_tail, List.cons_append, List.nil_append]
  rw [numDefaultCol_acc "calories_kcal" _ _ _ df.rows (hfresh _ (by decide)) (by decide)]
  simp only [List.cons_append, List.nil_append]
  rw [numDefaultCol_acc "steps" _ _ _ df.rows (hfresh _ (by decide)) (by decide)]
  simp only [List.cons_append, List.nil_append]
  rw [numDefaultCol_acc "avg_heart_rate_bpm" _ _ _ df.rows (hfresh _ (by decide))
    (by decide)]
  simp only [List.cons_append, List.nil_append]
  rw [activityTypeColumn_acc _ _ _ df.rows (hfresh _ (by decide)) (by decide)]
  simp only [List.cons_append, List.nil_append]
  rw [applyCodecCol_acc "duration_seconds" "duration_raw" parseTimeCell (Cell.num 0)
    _ _ _ df.rows (hfresh _ (by decide)) (by decide) (hfresh _ (by decide)) (by decide)]
  simp only [List.cons_append, List.nil_append]
  rw [applyCodecCol_acc "avg_pace_sec_per_km" "avg_pace_raw" parsePaceCell (Cell.num 0)
    _ _ _ df.rows (hfresh _ (by decide)) (by decide) (hfresh _ (by decide)) (by decide)]
  simp only [List.cons_append, List.nil_append]
  rw [applyCodecCol_acc "best_pace_sec_per_km" "best_pace_raw" parsePaceCell (Cell.num 0)
    _ _ _ df.rows (hfresh _ (by decide)) (by decide) (hfresh _ (by decide)) (by decide)]
  simp only [List.cons_append, List.nil_append]
  exact weekColumns_acc (df.cols.map cleanHeader) df.rows hrowlen
    (hfresh _ (by decide)) (hfresh _ (by decide)) (hfresh _ (by decide))
    (hfresh _ (by decide)) (hfresh _ (by decide))

/-- Witness for C7 applied to a concrete one-column, one-row frame whose
header maps to no canonical field. -/
theorem C7_unmapped_fields_defaulted_witness :
    process_mapped_data ⟨["Datum "], [[Cell.str "x"]]⟩ [] =
      Except.ok ⟨["Datum "].map cleanHeader ++ canonicalDefaultNames,
        [[Cell.str "x"]].map (fun r => r ++ canonicalDefaultCells)⟩ :=
  C7_unmapped_fields_defaulted ⟨["Datum "], [[Cell.str "x"]]⟩ (by decide) (by decide)

end Garmin
